import Mathlib

/-!
Verification development for the report-composition backend (`server.js`).

The embedding below translates `generatePDFBuffer`, `callOpenAI` and the
`/api/analyze` handler into Lean.  The third-party canvas library (pdfkit)
is modelled by a deterministic layout engine over an idealized uniform-width
font: `heightOfString` wraps text greedily at a maximum number of characters
per line (width divided by the per-character advance) exactly as the
library's line wrapper does, paragraph breaks at newlines, and every page is
a fixed A4 canvas with 50pt margins.  All geometry is integer-valued.
-/

namespace Assistente

/-- Page width of an A4 canvas in points (rounded to an integer). -/
def pageWidth : Nat := 595

/-- Page height of an A4 canvas in points (rounded to an integer). -/
def pageHeight : Nat := 842

/-- The document margin passed to the canvas constructor (`margin: 50`). -/
def pageMargin : Nat := 50

/-- Lowest admissible baseline: drawing past this starts a new page. -/
def bottomLimit : Nat := pageHeight - pageMargin

/-- Horizontal advance of one character at a given font size
(uniform-width font-metrics model). -/
def charW (size : Nat) : Nat := size / 2

/-- Height of one rendered line at a given font size (font-metrics model). -/
def lineH (size : Nat) : Nat := size + 3

/-- Split a character list at every occurrence of a separator character. -/
def splitOn (sep : Char) (l : List Char) : List (List Char) :=
  l.foldr
    (fun c acc =>
      match acc with
      | [] => [[]]
      | w :: ws => if c = sep then [] :: w :: ws else (c :: w) :: ws)
    [[]]

/-- Greedy line filler: given the lengths of the remaining words, the length
of the line currently being filled (`0` when the line is empty) and the
number of lines begun so far, return the total number of lines used. -/
def wrapAux (maxC : Nat) : List Nat → Nat → Nat → Nat
  | [], _, lines => lines
  | w :: ws, cur, lines =>
    if cur = 0 then wrapAux maxC ws w (lines + 1)
    else if cur + 1 + w ≤ maxC then wrapAux maxC ws (cur + 1 + w) lines
    else wrapAux maxC ws w (lines + 1)

/-- Number of lines one paragraph occupies when wrapped at `maxC`
characters per line; an empty paragraph still occupies one line. -/
def paragraphLines (maxC : Nat) (p : List Char) : Nat :=
  max 1 (wrapAux maxC (((splitOn ' ' p).map List.length).filter (fun n => 0 < n)) 0 0)

/-- Number of lines a string occupies when wrapped at `maxC` characters
per line, counting hard newlines as paragraph breaks. -/
def wrapLines (s : String) (maxC : Nat) : Nat :=
  ((splitOn '\n' s.data).map (paragraphLines maxC)).foldl (· + ·) 0

/-- Model of the canvas library's `heightOfString`: the rendered height of
`s` when wrapped at the given width and font size. -/
def heightOfString (s : String) (width : Nat) (size : Nat) : Nat :=
  wrapLines s (width / charW size) * lineH size

/-- The blue accent colour (`primaryColor` in the source). -/
def primaryColor : String := "#2E86C1"

/-- The body text colour (`textColor` in the source). -/
def textColor : String := "#222"

/-- The muted grey colour (`gray` in the source). -/
def gray : String := "#555"

/-- Fonts the source selects with `doc.font`. -/
inductive Font where
  | helvetica
  | helveticaBold
  | helveticaOblique
deriving DecidableEq, Repr

/-- A drawing command recorded on a page, with absolute geometry. -/
inductive Op where
  | rect (x y w h : Nat) (color : String) (opacity : Nat)
  | stroke (x y w h : Nat) (color : String)
  | image (x y w : Nat)
  | text (content : String) (x y w : Nat) (font : Font) (size : Nat)
      (color : String) (underline : Bool)
deriving DecidableEq, Repr

/-- A drawing command with the geometry forgotten (its visible signature). -/
inductive SOp where
  | rect (color : String) (opacity : Nat)
  | stroke (color : String)
  | image
  | text (content : String) (font : Font) (size : Nat) (color : String)
      (underline : Bool)
deriving DecidableEq, Repr

/-- Forget the geometry of a drawing command. -/
def sigOf : Op → SOp
  | .rect _ _ _ _ c o => .rect c o
  | .stroke _ _ _ _ c => .stroke c
  | .image _ _ _ => .image
  | .text s _ _ _ f sz c u => .text s f sz c u

/-- A finished document: the ordered list of pages, each an ordered list of
drawing commands. -/
abbrev Document := List (List Op)

/-- The mutable canvas state threaded through composition: finished pages,
the page being filled, the write cursor, and the current text attributes
(`bufferPages: true` keeps every finished page available). -/
structure DocState where
  pages : List (List Op)
  cur : List Op
  x : Nat
  y : Nat
  font : Font
  size : Nat
  fill : String
  opac : Nat
  pending : Option String
deriving DecidableEq, Repr

/-- Canvas state right after `new PDFDocument({size:'A4', margin:50})`. -/
def initState : DocState :=
  ⟨[], [], pageMargin, pageMargin, .helvetica, 12, "black", 100, none⟩

/-- Record a geometry-only drawing command on the current page. -/
def emit (st : DocState) (op : Op) : DocState :=
  { st with cur := st.cur ++ [op] }

/-- Finish the current page and begin a fresh one at the top margin. -/
def flushPage (st : DocState) : DocState :=
  { st with pages := st.pages ++ [st.cur], cur := [], y := pageMargin }

/-- Advance the cursor by `n` rendered lines of height `lh`, starting a new
page whenever the next line would pass the bottom margin. -/
def advanceLines : DocState → Nat → Nat → DocState
  | st, _, 0 => st
  | st, lh, n + 1 =>
    let st1 := if st.y + lh > bottomLimit then flushPage st else st
    advanceLines { st1 with y := st1.y + lh } lh n

/-- Model of `doc.moveDown(k)` where `tenths` is `k` scaled by ten:
the cursor drops by that many current line heights. -/
def moveDown (st : DocState) (tenths : Nat) : DocState :=
  { st with y := st.y + lineH st.size * tenths / 10 }

/-- Model of `doc.font`. -/
def setFont (st : DocState) (f : Font) : DocState := { st with font := f }

/-- Model of `doc.fontSize`. -/
def setSize (st : DocState) (n : Nat) : DocState := { st with size := n }

/-- Model of `doc.fillColor`. -/
def setFill (st : DocState) (c : String) : DocState := { st with fill := c }

/-- Model of `doc.fillOpacity` (percent). -/
def setOpac (st : DocState) (n : Nat) : DocState := { st with opac := n }

/-- Model of `doc.text(…, {continued: true})`: the fragment is buffered and
the next text call completes the line. -/
def pendText (st : DocState) (s : String) : DocState :=
  { st with pending := some ((st.pending.getD "") ++ s) }

/-- Core text placement: record a text command of `nLines` wrapped lines at
the cursor (page-breaking first if even one line no longer fits), then
advance the cursor line by line with automatic pagination. -/
def placeText (st : DocState) (content : String) (w : Nat) (nLines : Nat)
    (underline : Bool) : DocState :=
  let lh := lineH st.size
  let st1 := if st.y + lh > bottomLimit then flushPage st else st
  let st2 := { st1 with
    cur := st1.cur ++ [Op.text content st1.x st1.y w st1.font st1.size st1.fill underline],
    pending := none }
  advanceLines st2 lh nLines

/-- Model of a flowing `doc.text(s, opts)` call at the cursor: any buffered
continued fragment is completed, the width defaults to the space between
the current x position and the right margin. -/
def drawText (st : DocState) (s : String) (underline : Bool) : DocState :=
  let content := (st.pending.getD "") ++ s
  let w := pageWidth - st.x - pageMargin
  placeText st content w (wrapLines content (w / charW st.size)) underline

/-- Model of a positioned `doc.text(s, x, y, opts)` call: the cursor jumps
to the given position (and keeps the x position afterwards). -/
def drawTextAt (st : DocState) (s : String) (x y : Nat) (wo : Option Nat)
    (underline : Bool) : DocState :=
  let st0 := { st with x := x, y := y }
  let content := (st0.pending.getD "") ++ s
  let w := wo.getD (pageWidth - x - pageMargin)
  placeText st0 content w (wrapLines content (w / charW st0.size)) underline

/-- A JS object key is an array index when it is the canonical decimal
representation of an integer below `2^32 - 1`; such keys are iterated
first, in ascending numeric order, by `Object.entries`. -/
def isArrayIndex (s : String) : Bool :=
  let cs := s.data
  (!cs.isEmpty) && cs.all Char.isDigit &&
    (cs = ['0'] || cs.headD '0' ≠ '0') &&
    cs.foldl (fun n c => n * 10 + (c.toNat - 48)) 0 < 4294967295

/-- Numeric value of an entry's key (meaningful on array-index keys). -/
def keyNum (p : String × String) : Nat :=
  p.1.data.foldl (fun n c => n * 10 + (c.toNat - 48)) 0

/-- Insert an entry into a list sorted by numeric key value. -/
def insertByNum (x : String × String) :
    List (String × String) → List (String × String)
  | [] => [x]
  | y :: ys => if keyNum x ≤ keyNum y then x :: y :: ys else y :: insertByNum x ys

/-- Sort entries by numeric key value (insertion sort). -/
def sortByNum : List (String × String) → List (String × String)
  | [] => []
  | x :: xs => insertByNum x (sortByNum xs)

/-- Model of JavaScript's `Object.entries` iteration order over an object
built by inserting the given entries in order: array-index keys come first
in ascending numeric order, the remaining keys in insertion order. -/
def jsEntries (l : List (String × String)) : List (String × String) :=
  sortByNum (l.filter (fun p => isArrayIndex p.1)) ++
    l.filter (fun p => !isArrayIndex p.1)

/-- Errors composition can surface; the canvas library rejects an image
file whose bytes match no format it knows. -/
inductive RenderError where
  | unknownImageFormat
deriving DecidableEq, Repr

/-- PNG signature check used by the canvas library's image opener. -/
def isPNG : List Nat → Bool
  | 137 :: 80 :: 78 :: 71 :: 13 :: 10 :: 26 :: 10 :: _ => true
  | _ => false

/-- JPEG signature check used by the canvas library's image opener. -/
def isJPEG : List Nat → Bool
  | 255 :: 216 :: _ => true
  | _ => false

/-- Footer text stamped on page `idx` (1-based) of `count` pages. -/
def footerText (idx count : Nat) : String :=
  "Assistente de Bem-Estar — Página " ++ toString idx ++ " de " ++ toString count

/-- The centered footer command for 0-based page `i` of `count` pages,
drawn at `fontSize(9).fillColor(gray)` in whatever font is current. -/
def footerOp (i count : Nat) (f : Font) : Op :=
  .text (footerText (i + 1) count) pageMargin (pageHeight - 40)
    (pageWidth - 100) f 9 gray false

/-- Stamp a footer onto every buffered page, the page at position `i`
getting index `i` (the source's loop over `doc.bufferedPageRange()`). -/
def stampFrom (i count : Nat) (f : Font) : List (List Op) → List (List Op)
  | [] => []
  | p :: ps => (p ++ [footerOp i count f]) :: stampFrom (i + 1) count f ps

/-- Width of the analysis highlight box: `doc.page.width - 90`. -/
def boxWidth : Nat := pageWidth - 90

/-- The measurement pass before the highlight rectangle is drawn:
`doc.heightOfString(analysis, { width: boxWidth })` at font size 11. -/
def analysisMeasuredHeight (analysis : String) : Nat :=
  heightOfString analysis boxWidth 11

/-- Height of the drawn highlight rectangle: the measured height plus the
fixed padding of 16 (`textHeight + 16`). -/
def analysisRectHeight (analysis : String) : Nat :=
  analysisMeasuredHeight analysis + 16

/-- Height the analysis text actually renders at, since it is drawn with
`doc.text(analysis, 55, analysisY, { width: boxWidth - 20, … })`. -/
def analysisDrawnHeight (analysis : String) : Nat :=
  heightOfString analysis (boxWidth - 20) 11

/-- Default wrapping width of the timestamp line, which flows at the
x position (130) the header title left behind. -/
def tsWidth : Nat := pageWidth - 130 - pageMargin

/-- The full content of the line carrying the generation timestamp: with an
email present the pending `Nome:` fragment was already completed by the
email text, otherwise the timestamp call completes it. -/
def tsLine (name : String) (email : Option String) (ts : String) : String :=
  match email with
  | some _ => "Gerado em: " ++ ts
  | none => "Nome: " ++ name ++ "Gerado em: " ++ ts

/-- Header band, logo, title and identity block of `generatePDFBuffer`,
up to (but not including) the timestamp text call. -/
def preTs (name : String) (email : Option String) (hasLogo : Bool) : DocState :=
  let st := initState
  let st := emit st (Op.rect 0 0 pageWidth 80 primaryColor st.opac)
  let st := if hasLogo then emit st (Op.image 50 20 60) else st
  let st := setFill st "white"
  let st := setSize st 20
  let st := drawTextAt st "Assistente de Bem-Estar" 130 35 none false
  let st := moveDown st 20
  let st := setFill st textColor
  let st := moveDown st 15
  let st := setSize st 12
  let st := pendText st ("Nome: " ++ name)
  let st := setFill st gray
  let st := match email with
    | some e => drawText st ("   |   Email: " ++ e) false
    | none => st
  let st := moveDown st 5
  let st := setFill st gray
  setSize st 10

/-- One iteration of the question/answer loop: the question in bold, the
answer in oblique grey, then a small gap (the font is not reset). -/
def qaStep (st : DocState) (qa : String × String) : DocState :=
  let st := setFont st .helveticaBold
  let st := drawText st ("• " ++ qa.1) false
  let st := setFont st .helveticaOblique
  let st := setFill st gray
  let st := drawText st ("  " ++ qa.2) false
  let st := setFill st textColor
  moveDown st 3

/-- Everything drawn after the timestamp line: the answers section, the
question/answer loop, and the measured-then-drawn analysis block. -/
def restChain (st : DocState) (entries : List (String × String))
    (analysis : String) : DocState :=
  let st := moveDown st 15
  let st := setFill st primaryColor
  let st := setSize st 14
  let st := drawText st "Respostas do Formulário" true
  let st := moveDown st 5
  let st := setFill st textColor
  let st := setSize st 11
  let st := emit st (Op.stroke 45 (st.y - 5) (pageWidth - 90) 0 primaryColor)
  let st := moveDown st 5
  let st := entries.foldl qaStep st
  let st := moveDown st 12
  let st := setFill st primaryColor
  let st := setSize st 14
  let st := drawText st "Análise e Recomendações" true
  let st := moveDown st 5
  let st := setSize st 11
  let st := setFill st textColor
  let ay := st.y
  let th := analysisMeasuredHeight analysis
  let st := setOpac st 5
  let st := emit st (Op.rect 45 (ay - 8) boxWidth (th + 16) primaryColor st.opac)
  let st := setOpac st 100
  let st := setFill st textColor
  let st := drawTextAt st analysis 55 ay (some (boxWidth - 20)) false
  moveDown st 20

/-- The whole content pass of `generatePDFBuffer`, with the timestamp line
content and its wrapped line count taken as parameters. -/
def contentState (name : String) (email : Option String)
    (entries : List (String × String)) (analysis : String) (hasLogo : Bool)
    (tsContent : String) (tsLines : Nat) : DocState :=
  let st := preTs name email hasLogo
  let st := placeText st tsContent (pageWidth - st.x - pageMargin) tsLines false
  restChain st entries analysis

/-- Content pass followed by the footer pass: once all content is drawn,
every buffered page (the current one included) is stamped with its footer. -/
def buildCore (name : String) (email : Option String)
    (entries : List (String × String)) (analysis : String) (hasLogo : Bool)
    (tsContent : String) (tsLines : Nat) : Document :=
  let st := contentState name email entries analysis hasLogo tsContent tsLines
  let all := st.pages ++ [st.cur]
  stampFrom 0 all.length st.font all

/-- The document `generatePDFBuffer` lays out for the given inputs, with
`hasLogo` telling whether a readable logo file is drawn in the header. -/
def buildDoc (name : String) (email : Option String)
    (responses : Option (List (String × String))) (analysis : String)
    (hasLogo : Bool) (ts : String) : Document :=
  let tsl := tsLine name email ts
  buildCore name email (jsEntries (responses.getD [])) analysis hasLogo tsl
    (wrapLines tsl (tsWidth / charW 10))

/-- Model of `generatePDFBuffer`: the promise resolves with the finished
document, or rejects when a logo file exists but its bytes match no image
format the canvas library can decode. -/
def generatePDFBuffer (name : String) (email : Option String)
    (responses : Option (List (String × String))) (analysis : String)
    (logo : Option (List Nat)) (ts : String) : Except RenderError Document :=
  match logo with
  | some bytes =>
    if isPNG bytes || isJPEG bytes then
      .ok (buildDoc name email responses analysis true ts)
    else .error RenderError.unknownImageFormat
  | none => .ok (buildDoc name email responses analysis false ts)

/-- The literal demo report `callOpenAI` returns when no API key is set. -/
def demoAnalysis : String :=
  "RELATÓRIO DE EXEMPLO:\n- Avaliação geral: Sono regular, necessidade de aumento de atividade física.\n- 5 recomendações práticas: Estabelecer rotina de sono; Exercício 30 min 3x/semana; Planejar refeições; Hidratar; Pausas ativas.\n(Defina OPENAI_API_KEY para análises reais)"

/-- The literal fallback analysis the handler substitutes when the
provider call throws. -/
def fallbackAnalysis : String :=
  "Não foi possível obter análise da IA. Aqui está um relatório de fallback:\n- Rotina de sono\n- Exercício regular\n- Alimentação equilibrada\n- Hidratação\n- Pausas durante o trabalho"

/-- The system prompt built by the handler. -/
def systemPromptStr : String :=
  "Você é um assistente de bem-estar que produz recomendações práticas e passo-a-passo."

/-- JavaScript template-literal rendering of a possibly-undefined string. -/
def jsShow : Option String → String
  | none => "undefined"
  | some s => s

/-- The user prompt built by the handler from the request fields. -/
def userPromptStr (name : String) (email : Option String)
    (responses : Option (List (String × String))) : String :=
  "Usuario: " ++ name ++ "\nEmail: " ++ jsShow email ++ "\nRespostas:\n" ++
    String.join ((jsEntries (responses.getD [])).map
      (fun qa => "- " ++ qa.1 ++ ": " ++ qa.2 ++ "\n")) ++
    "\nGere um relatório com análise breve e 5 recomendações práticas."

/-- Model of `callOpenAI`: without a configured key it returns the literal
demo report; with a key it performs the network call, whose outcome
(success text, or the error thrown on a non-ok response or network
failure) is supplied as `fetchResult`. -/
def callOpenAI (key : Option String) (fetchResult : Except String String)
    (systemPrompt userPrompt : String) : Except String String :=
  match key with
  | none => .ok demoAnalysis
  | some _ => fetchResult.map (fun t => t.trim)

/-- Value of one base64 alphabet character; characters outside the
alphabet are ignored by Node's decoder. -/
def b64Val (c : Char) : Option Nat :=
  if 'A' ≤ c ∧ c ≤ 'Z' then some (c.toNat - 65)
  else if 'a' ≤ c ∧ c ≤ 'z' then some (c.toNat - 71)
  else if '0' ≤ c ∧ c ≤ '9' then some (c.toNat + 4)
  else if c = '+' then some 62
  else if c = '/' then some 63
  else none

/-- Reassemble 6-bit groups into bytes the way `Buffer.from(s, 'base64')`
does, dropping a trailing lone group. -/
def b64Chunks : List Nat → List Nat
  | a :: b :: c :: d :: rest =>
    (a * 4 + b / 16) :: ((b % 16) * 16 + c / 4) :: ((c % 4) * 64 + d) ::
      b64Chunks rest
  | [a, b, c] => [a * 4 + b / 16, (b % 16) * 16 + c / 4]
  | [a, b] => [a * 4 + b / 16]
  | _ => []

/-- Model of `Buffer.from(s, 'base64')`. -/
def base64Decode (s : List Char) : List Nat :=
  b64Chunks (s.filterMap b64Val)

/-- Does the character list start with the given pattern? -/
def startsWithL : List Char → List Char → Bool
  | _, [] => true
  | [], _ :: _ => false
  | c :: cs, p :: ps => c = p && startsWithL cs ps

/-- A regex word character (`\w`). -/
def isWordChar (c : Char) : Bool := c.isAlphanum || c = '_'

/-- Model of matching `/^data:(image\/\w+);base64,(.+)$/` against the
payload, returning the base64 portion on success (`.` matches no
newline, so a payload containing one fails the match). -/
def parseDataUrl (s : String) : Option (List Char) :=
  let cs := s.data
  if startsWithL cs "data:image/".data then
    let rest := cs.drop 11
    let sub := rest.takeWhile isWordChar
    if sub.isEmpty then none
    else
      let rest2 := rest.drop sub.length
      if startsWithL rest2 ";base64,".data then
        let payload := rest2.drop 8
        if payload.isEmpty || payload.contains '\n' then none
        else some payload
      else none
  else none

/-- The logo-saving step of the handler: a falsy or non-matching payload
leaves `logoPath` null, otherwise the decoded bytes are written to a file
whose contents composition later reads. -/
def decodeLogo : Option String → Option (List Nat)
  | none => none
  | some s =>
    if s.data.isEmpty then none
    else
      match parseDataUrl s with
      | some payload => some (base64Decode payload)
      | none => none

/-- A JavaScript whitespace character (`\s`), restricted to the ASCII
escapes that can occur in the modelled names. -/
def isJsWs (c : Char) : Bool :=
  c = ' ' || c = '\t' || c = '\n' || c = '\x0d' || c = '\x0b' || c = '\x0c'

/-- State machine for `replace(/\s+/g, '_')`: the flag records whether the
previous character was whitespace (so a run yields a single underscore). -/
def replaceWsAux : Bool → List Char → List Char
  | _, [] => []
  | prevWs, c :: rest =>
    if isJsWs c then
      if prevWs then replaceWsAux true rest
      else '_' :: replaceWsAux true rest
    else c :: replaceWsAux false rest

/-- Model of `name.replace(/\s+/g, '_')`. -/
def jsReplaceWs (s : String) : String :=
  ⟨replaceWsAux false s.data⟩

/-- The response the route sends back. -/
inductive Resp where
  | badRequest (msg : String)
  | pdf (filename : String) (doc : Document)
  | serverError (msg : String)
deriving DecidableEq, Repr

/-- Externally visible side effects of one request. -/
structure Effects where
  openaiCalled : Bool
  logoWritten : Bool
  composerInvoked : Bool
  persistenceAttempted : Bool
deriving DecidableEq, Repr

/-- No side effect has happened. -/
def noEffects : Effects := ⟨false, false, false, false⟩

/-- The request body fields the route reads. -/
structure ReqBody where
  name : Option String
  email : Option String
  responses : Option (List (String × String))
  logoBase64 : Option String

/-- External collaborators of one request: the configured key, the outcome
the provider network call would have, and the generation timestamp. -/
structure Env where
  openaiKey : Option String
  fetchResult : Except String String
  timestamp : String

/-- JavaScript truthiness test of `!name` for the request's name field. -/
def isFalsyName : Option String → Bool
  | none => true
  | some s => s.data.isEmpty

/-- Model of the `/api/analyze` route: validate the name, obtain the
analysis (falling back on provider failure), save the logo if decodable,
compose the document, then answer with the bytes and the sanitized
filename (the fire-and-forget persistence write runs only on success). -/
def analyzeHandler (env : Env) (req : ReqBody) : Resp × Effects :=
  if isFalsyName req.name then (.badRequest "Nome é obrigatório", noEffects)
  else
    let name := req.name.getD ""
    let analysis :=
      match callOpenAI env.openaiKey env.fetchResult systemPromptStr
          (userPromptStr name req.email req.responses) with
      | .ok t => t
      | .error _ => fallbackAnalysis
    let logo := decodeLogo req.logoBase64
    match generatePDFBuffer name req.email req.responses analysis logo
        env.timestamp with
    | .error _ =>
      (.serverError "Erro interno no servidor", ⟨true, logo.isSome, true, false⟩)
    | .ok d =>
      (.pdf ("relatorio_" ++ jsReplaceWs name ++ ".pdf") d,
        ⟨true, logo.isSome, true, true⟩)

/-- Every drawing command recorded so far, in drawing order. -/
def allOps (st : DocState) : List Op := st.pages.flatten ++ st.cur

/-- The geometry-free signatures of every recorded command, in order. -/
def sigs (st : DocState) : List SOp := (allOps st).map sigOf

@[simp] theorem flushPage_x (st : DocState) : (flushPage st).x = st.x := rfl

@[simp] theorem flushPage_font (st : DocState) : (flushPage st).font = st.font := rfl

@[simp] theorem flushPage_size (st : DocState) : (flushPage st).size = st.size := rfl

@[simp] theorem flushPage_fill (st : DocState) : (flushPage st).fill = st.fill := rfl

@[simp] theorem flushPage_opac (st : DocState) : (flushPage st).opac = st.opac := rfl

@[simp] theorem flushPage_pending (st : DocState) :
    (flushPage st).pending = st.pending := rfl

@[simp] theorem advanceLines_zero (st : DocState) (lh : Nat) :
    advanceLines st lh 0 = st := rfl

theorem advanceLines_succ (st : DocState) (lh n : Nat) :
    advanceLines st lh (n + 1) =
      advanceLines { (if st.y + lh > bottomLimit then flushPage st else st) with
        y := (if st.y + lh > bottomLimit then flushPage st else st).y + lh } lh n := rfl

@[simp] theorem advanceLines_x (lh : Nat) :
    ∀ (n : Nat) (st : DocState), (advanceLines st lh n).x = st.x
  | 0, _ => rfl
  | n + 1, st => by
    rw [advanceLines_succ, advanceLines_x lh n]
    by_cases h : st.y + lh > bottomLimit <;> simp [h]

@[simp] theorem advanceLines_font (lh : Nat) :
    ∀ (n : Nat) (st : DocState), (advanceLines st lh n).font = st.font
  | 0, _ => rfl
  | n + 1, st => by
    rw [advanceLines_succ, advanceLines_font lh n]
    by_cases h : st.y + lh > bottomLimit <;> simp [h]

@[simp] theorem advanceLines_size (lh : Nat) :
    ∀ (n : Nat) (st : DocState), (advanceLines st lh n).size = st.size
  | 0, _ => rfl
  | n + 1, st => by
    rw [advanceLines_succ, advanceLines_size lh n]
    by_cases h : st.y + lh > bottomLimit <;> simp [h]

@[simp] theorem advanceLines_fill (lh : Nat) :
    ∀ (n : Nat) (st : DocState), (advanceLines st lh n).fill = st.fill
  | 0, _ => rfl
  | n + 1, st => by
    rw [advanceLines_succ, advanceLines_fill lh n]
    by_cases h : st.y + lh > bottomLimit <;> simp [h]

@[simp] theorem advanceLines_opac (lh : Nat) :
    ∀ (n : Nat) (st : DocState), (advanceLines st lh n).opac = st.opac
  | 0, _ => rfl
  | n + 1, st => by
    rw [advanceLines_succ, advanceLines_opac lh n]
    by_cases h : st.y + lh > bottomLimit <;> simp [h]

@[simp] theorem advanceLines_pending (lh : Nat) :
    ∀ (n : Nat) (st : DocState), (advanceLines st lh n).pending = st.pending
  | 0, _ => rfl
  | n + 1, st => by
    rw [advanceLines_succ, advanceLines_pending lh n]
    by_cases h : st.y + lh > bottomLimit <;> simp [h]

@[simp] theorem allOps_emit (st : DocState) (op : Op) :
    allOps (emit st op) = allOps st ++ [op] := by
  simp [allOps, emit]

@[simp] theorem allOps_flushPage (st : DocState) :
    allOps (flushPage st) = allOps st := by
  simp [allOps, flushPage]

@[simp] theorem allOps_advanceLines (lh : Nat) :
    ∀ (n : Nat) (st : DocState), allOps (advanceLines st lh n) = allOps st
  | 0, _ => rfl
  | n + 1, st => by
    rw [advanceLines_succ, allOps_advanceLines lh n]
    by_cases h : st.y + lh > bottomLimit <;> simp [h, allOps, flushPage]

@[simp] theorem allOps_moveDown (st : DocState) (t : Nat) :
    allOps (moveDown st t) = allOps st := rfl

@[simp] theorem allOps_setFont (st : DocState) (f : Font) :
    allOps (setFont st f) = allOps st := rfl

@[simp] theorem allOps_setSize (st : DocState) (n : Nat) :
    allOps (setSize st n) = allOps st := rfl

@[simp] theorem allOps_setFill (st : DocState) (c : String) :
    allOps (setFill st c) = allOps st := rfl

@[simp] theorem allOps_setOpac (st : DocState) (n : Nat) :
    allOps (setOpac st n) = allOps st := rfl

@[simp] theorem allOps_pendText (st : DocState) (s : String) :
    allOps (pendText st s) = allOps st := rfl

theorem placeText_scalars (st : DocState) (c : String) (w n : Nat) (u : Bool) :
    (placeText st c w n u).x = st.x ∧ (placeText st c w n u).font = st.font ∧
    (placeText st c w n u).size = st.size ∧
    (placeText st c w n u).fill = st.fill ∧
    (placeText st c w n u).opac = st.opac ∧
    (placeText st c w n u).pending = none := by
  unfold placeText
  by_cases h : st.y + lineH st.size > bottomLimit <;> simp [h]

@[simp] theorem placeText_x (st : DocState) (c : String) (w n : Nat) (u : Bool) :
    (placeText st c w n u).x = st.x := (placeText_scalars st c w n u).1

@[simp] theorem placeText_font (st : DocState) (c : String) (w n : Nat) (u : Bool) :
    (placeText st c w n u).font = st.font := (placeText_scalars st c w n u).2.1

@[simp] theorem placeText_size (st : DocState) (c : String) (w n : Nat) (u : Bool) :
    (placeText st c w n u).size = st.size := (placeText_scalars st c w n u).2.2.1

@[simp] theorem placeText_fill (st : DocState) (c : String) (w n : Nat) (u : Bool) :
    (placeText st c w n u).fill = st.fill := (placeText_scalars st c w n u).2.2.2.1

@[simp] theorem placeText_opac (st : DocState) (c : String) (w n : Nat) (u : Bool) :
    (placeText st c w n u).opac = st.opac := (placeText_scalars st c w n u).2.2.2.2.1

@[simp] theorem placeText_pending (st : DocState) (c : String) (w n : Nat) (u : Bool) :
    (placeText st c w n u).pending = none := (placeText_scalars st c w n u).2.2.2.2.2

theorem sigs_placeText (st : DocState) (c : String) (w n : Nat) (u : Bool) :
    sigs (placeText st c w n u) =
      sigs st ++ [SOp.text c st.font st.size st.fill u] := by
  unfold placeText
  simp only [sigs, allOps_advanceLines]
  by_cases h : st.y + lineH st.size > bottomLimit <;>
    simp [h, allOps, flushPage, sigOf]

@[simp] theorem sigs_emit (st : DocState) (op : Op) :
    sigs (emit st op) = sigs st ++ [sigOf op] := by
  simp [sigs]

@[simp] theorem moveDown_x (st : DocState) (t : Nat) : (moveDown st t).x = st.x := rfl

@[simp] theorem moveDown_y (st : DocState) (t : Nat) :
    (moveDown st t).y = st.y + lineH st.size * t / 10 := rfl

@[simp] theorem moveDown_font (st : DocState) (t : Nat) : (moveDown st t).font = st.font := rfl

@[simp] theorem moveDown_size (st : DocState) (t : Nat) : (moveDown st t).size = st.size := rfl

@[simp] theorem moveDown_fill (st : DocState) (t : Nat) : (moveDown st t).fill = st.fill := rfl

@[simp] theorem moveDown_opac (st : DocState) (t : Nat) : (moveDown st t).opac = st.opac := rfl

@[simp] theorem moveDown_pending (st : DocState) (t : Nat) :
    (moveDown st t).pending = st.pending := rfl

@[simp] theorem setFont_x (st : DocState) (f : Font) : (setFont st f).x = st.x := rfl

@[simp] theorem setFont_y (st : DocState) (f : Font) : (setFont st f).y = st.y := rfl

@[simp] theorem setFont_font (st : DocState) (f : Font) : (setFont st f).font = f := rfl

@[simp] theorem setFont_size (st : DocState) (f : Font) : (setFont st f).size = st.size := rfl

@[simp] theorem setFont_fill (st : DocState) (f : Font) : (setFont st f).fill = st.fill := rfl

@[simp] theorem setFont_opac (st : DocState) (f : Font) : (setFont st f).opac = st.opac := rfl

@[simp] theorem setFont_pending (st : DocState) (f : Font) :
    (setFont st f).pending = st.pending := rfl

@[simp] theorem setSize_x (st : DocState) (n : Nat) : (setSize st n).x = st.x := rfl

@[simp] theorem setSize_y (st : DocState) (n : Nat) : (setSize st n).y = st.y := rfl

@[simp] theorem setSize_font (st : DocState) (n : Nat) : (setSize st n).font = st.font := rfl

@[simp] theorem setSize_size (st : DocState) (n : Nat) : (setSize st n).size = n := rfl

@[simp] theorem setSize_fill (st : DocState) (n : Nat) : (setSize st n).fill = st.fill := rfl

@[simp] theorem setSize_opac (st : DocState) (n : Nat) : (setSize st n).opac = st.opac := rfl

@[simp] theorem setSize_pending (st : DocState) (n : Nat) :
    (setSize st n).pending = st.pending := rfl

@[simp] theorem setFill_x (st : DocState) (c : String) : (setFill st c).x = st.x := rfl

@[simp] theorem setFill_y (st : DocState) (c : String) : (setFill st c).y = st.y := rfl

@[simp] theorem setFill_font (st : DocState) (c : String) : (setFill st c).font = st.font := rfl

@[simp] theorem setFill_size (st : DocState) (c : String) : (setFill st c).size = st.size := rfl

@[simp] theorem setFill_fill (st : DocState) (c : String) : (setFill st c).fill = c := rfl

@[simp] theorem setFill_opac (st : DocState) (c : String) : (setFill st c).opac = st.opac := rfl

@[simp] theorem setFill_pending (st : DocState) (c : String) :
    (setFill st c).pending = st.pending := rfl

@[simp] theorem setOpac_x (st : DocState) (n : Nat) : (setOpac st n).x = st.x := rfl

@[simp] theorem setOpac_y (st : DocState) (n : Nat) : (setOpac st n).y = st.y := rfl

@[simp] theorem setOpac_font (st : DocState) (n : Nat) : (setOpac st n).font = st.font := rfl

@[simp] theorem setOpac_size (st : DocState) (n : Nat) : (setOpac st n).size = st.size := rfl

@[simp] theorem setOpac_fill (st : DocState) (n : Nat) : (setOpac st n).fill = st.fill := rfl

@[simp] theorem setOpac_opac (st : DocState) (n : Nat) : (setOpac st n).opac = n := rfl

@[simp] theorem setOpac_pending (st : DocState) (n : Nat) :
    (setOpac st n).pending = st.pending := rfl

@[simp] theorem pendText_x (st : DocState) (s : String) : (pendText st s).x = st.x := rfl

@[simp] theorem pendText_y (st : DocState) (s : String) : (pendText st s).y = st.y := rfl

@[simp] theorem pendText_font (st : DocState) (s : String) :
    (pendText st s).font = st.font := rfl

@[simp] theorem pendText_size (st : DocState) (s : String) :
    (pendText st s).size = st.size := rfl

@[simp] theorem pendText_fill (st : DocState) (s : String) :
    (pendText st s).fill = st.fill := rfl

@[simp] theorem pendText_opac (st : DocState) (s : String) :
    (pendText st s).opac = st.opac := rfl

@[simp] theorem pendText_pending (st : DocState) (s : String) :
    (pendText st s).pending = some ((st.pending.getD "") ++ s) := rfl

@[simp] theorem emit_x (st : DocState) (op : Op) : (emit st op).x = st.x := rfl

@[simp] theorem emit_y (st : DocState) (op : Op) : (emit st op).y = st.y := rfl

@[simp] theorem emit_font (st : DocState) (op : Op) : (emit st op).font = st.font := rfl

@[simp] theorem emit_size (st : DocState) (op : Op) : (emit st op).size = st.size := rfl

@[simp] theorem emit_fill (st : DocState) (op : Op) : (emit st op).fill = st.fill := rfl

@[simp] theorem emit_opac (st : DocState) (op : Op) : (emit st op).opac = st.opac := rfl

@[simp] theorem emit_pending (st : DocState) (op : Op) :
    (emit st op).pending = st.pending := rfl

@[simp] theorem sigs_moveDown (st : DocState) (t : Nat) :
    sigs (moveDown st t) = sigs st := rfl

@[simp] theorem sigs_setFont (st : DocState) (f : Font) :
    sigs (setFont st f) = sigs st := rfl

@[simp] theorem sigs_setSize (st : DocState) (n : Nat) :
    sigs (setSize st n) = sigs st := rfl

@[simp] theorem sigs_setFill (st : DocState) (c : String) :
    sigs (setFill st c) = sigs st := rfl

@[simp] theorem sigs_setOpac (st : DocState) (n : Nat) :
    sigs (setOpac st n) = sigs st := rfl

@[simp] theorem sigs_pendText (st : DocState) (s : String) :
    sigs (pendText st s) = sigs st := rfl

@[simp] theorem sigs_drawText (st : DocState) (s : String) (u : Bool) :
    sigs (drawText st s u) =
      sigs st ++ [SOp.text ((st.pending.getD "") ++ s) st.font st.size st.fill u] := by
  simp [drawText, sigs_placeText]

@[simp] theorem sigs_drawTextAt (st : DocState) (s : String) (x y : Nat)
    (wo : Option Nat) (u : Bool) :
    sigs (drawTextAt st s x y wo u) =
      sigs st ++ [SOp.text ((st.pending.getD "") ++ s) st.font st.size st.fill u] := by
  simp only [drawTextAt, sigs_placeText]
  simp [sigs, allOps]

theorem drawText_scalars (st : DocState) (s : String) (u : Bool) :
    (drawText st s u).x = st.x ∧ (drawText st s u).font = st.font ∧
    (drawText st s u).size = st.size ∧ (drawText st s u).fill = st.fill ∧
    (drawText st s u).opac = st.opac ∧ (drawText st s u).pending = none := by
  simp [drawText]

@[simp] theorem drawText_x (st : DocState) (s : String) (u : Bool) :
    (drawText st s u).x = st.x := (drawText_scalars st s u).1

@[simp] theorem drawText_font (st : DocState) (s : String) (u : Bool) :
    (drawText st s u).font = st.font := (drawText_scalars st s u).2.1

@[simp] theorem drawText_size (st : DocState) (s : String) (u : Bool) :
    (drawText st s u).size = st.size := (drawText_scalars st s u).2.2.1

@[simp] theorem drawText_fill (st : DocState) (s : String) (u : Bool) :
    (drawText st s u).fill = st.fill := (drawText_scalars st s u).2.2.2.1

@[simp] theorem drawText_opac (st : DocState) (s : String) (u : Bool) :
    (drawText st s u).opac = st.opac := (drawText_scalars st s u).2.2.2.2.1

@[simp] theorem drawText_pending (st : DocState) (s : String) (u : Bool) :
    (drawText st s u).pending = none := (drawText_scalars st s u).2.2.2.2.2

theorem drawTextAt_scalars (st : DocState) (s : String) (x y : Nat)
    (wo : Option Nat) (u : Bool) :
    (drawTextAt st s x y wo u).x = x ∧ (drawTextAt st s x y wo u).font = st.font ∧
    (drawTextAt st s x y wo u).size = st.size ∧
    (drawTextAt st s x y wo u).fill = st.fill ∧
    (drawTextAt st s x y wo u).opac = st.opac ∧
    (drawTextAt st s x y wo u).pending = none := by
  simp [drawTextAt]

@[simp] theorem drawTextAt_x (st : DocState) (s : String) (x y : Nat)
    (wo : Option Nat) (u : Bool) :
    (drawTextAt st s x y wo u).x = x := (drawTextAt_scalars st s x y wo u).1

@[simp] theorem drawTextAt_font (st : DocState) (s : String) (x y : Nat)
    (wo : Option Nat) (u : Bool) :
    (drawTextAt st s x y wo u).font = st.font := (drawTextAt_scalars st s x y wo u).2.1

@[simp] theorem drawTextAt_size (st : DocState) (s : String) (x y : Nat)
    (wo : Option Nat) (u : Bool) :
    (drawTextAt st s x y wo u).size = st.size := (drawTextAt_scalars st s x y wo u).2.2.1

@[simp] theorem drawTextAt_fill (st : DocState) (s : String) (x y : Nat)
    (wo : Option Nat) (u : Bool) :
    (drawTextAt st s x y wo u).fill = st.fill := (drawTextAt_scalars st s x y wo u).2.2.2.1

@[simp] theorem drawTextAt_opac (st : DocState) (s : String) (x y : Nat)
    (wo : Option Nat) (u : Bool) :
    (drawTextAt st s x y wo u).opac = st.opac := (drawTextAt_scalars st s x y wo u).2.2.2.2.1

@[simp] theorem drawTextAt_pending (st : DocState) (s : String) (x y : Nat)
    (wo : Option Nat) (u : Bool) :
    (drawTextAt st s x y wo u).pending = none := (drawTextAt_scalars st s x y wo u).2.2.2.2.2

theorem sigs_qaStep (st : DocState) (qa : String × String) :
    sigs (qaStep st qa) =
      sigs st ++
        [SOp.text ((st.pending.getD "") ++ ("• " ++ qa.1)) .helveticaBold st.size st.fill false,
         SOp.text ("  " ++ qa.2) .helveticaOblique st.size gray false] := by
  simp [qaStep]

theorem qaStep_scalars (st : DocState) (qa : String × String) :
    (qaStep st qa).x = st.x ∧ (qaStep st qa).font = Font.helveticaOblique ∧
    (qaStep st qa).size = st.size ∧ (qaStep st qa).fill = textColor ∧
    (qaStep st qa).opac = st.opac ∧ (qaStep st qa).pending = none := by
  simp [qaStep]

theorem sigs_qaFold :
    ∀ (l : List (String × String)) (st : DocState), st.pending = none →
      st.fill = textColor →
      sigs (l.foldl qaStep st) =
        sigs st ++ l.flatMap (fun qa =>
          [SOp.text ("• " ++ qa.1) .helveticaBold st.size textColor false,
           SOp.text ("  " ++ qa.2) .helveticaOblique st.size gray false])
  | [], st, _, _ => by simp
  | qa :: l, st, hp, hf => by
    have hstep := sigs_qaStep st qa
    have hsc := qaStep_scalars st qa
    have := sigs_qaFold l (qaStep st qa) hsc.2.2.2.2.2 hsc.2.2.2.1
    simp only [List.foldl_cons, this, hstep, hsc.2.2.1, hp, hf]
    simp

theorem qaFold_font (l : List (String × String)) :
    ∀ (st : DocState), (l.foldl qaStep st).font =
      if l.isEmpty then st.font else Font.helveticaOblique := by
  induction l with
  | nil => intro st; simp
  | cons qa l ih =>
    intro st
    have hsc := qaStep_scalars st qa
    by_cases h : l.isEmpty <;>
      simp [List.foldl_cons, ih, h, hsc.2.1]

theorem qaFold_scalars (l : List (String × String)) :
    ∀ (st : DocState), st.pending = none → st.fill = textColor →
      (l.foldl qaStep st).x = st.x ∧ (l.foldl qaStep st).size = st.size ∧
      (l.foldl qaStep st).fill = textColor ∧
      (l.foldl qaStep st).pending = none := by
  induction l with
  | nil => intro st hp hf; simp [hp, hf]
  | cons qa l ih =>
    intro st hp hf
    have hsc := qaStep_scalars st qa
    have h2 := ih (qaStep st qa) hsc.2.2.2.2.2 hsc.2.2.2.1
    refine ⟨?_, ?_, h2.2.2.1, h2.2.2.2⟩
    · rw [List.foldl_cons, h2.1, hsc.1]
    · rw [List.foldl_cons, h2.2.1, hsc.2.2.1]

@[simp] theorem qaFold_size (l : List (String × String)) :
    ∀ (st : DocState), (l.foldl qaStep st).size = st.size := by
  induction l with
  | nil => intro st; rfl
  | cons qa l ih => intro st; rw [List.foldl_cons, ih, (qaStep_scalars st qa).2.2.1]

@[simp] theorem qaFold_pending (l : List (String × String)) :
    ∀ (st : DocState), (l.foldl qaStep st).pending =
      if l.isEmpty then st.pending else none := by
  induction l with
  | nil => intro st; simp
  | cons qa l ih =>
    intro st
    rw [List.foldl_cons, ih]
    by_cases h : l.isEmpty <;> simp [h, (qaStep_scalars st qa).2.2.2.2.2]

@[simp] theorem qaFold_fill (l : List (String × String)) :
    ∀ (st : DocState), (l.foldl qaStep st).fill =
      if l.isEmpty then st.fill else textColor := by
  induction l with
  | nil => intro st; simp
  | cons qa l ih =>
    intro st
    rw [List.foldl_cons, ih]
    by_cases h : l.isEmpty <;> simp [h, (qaStep_scalars st qa).2.2.2.1]

/-- The signature list of everything the answers and analysis sections draw. -/
def restSigs (stFont : Font) (entries : List (String × String))
    (analysis : String) : List SOp :=
  [SOp.text "Respostas do Formulário" stFont 14 primaryColor true,
   SOp.stroke primaryColor] ++
  entries.flatMap (fun qa =>
    [SOp.text ("• " ++ qa.1) .helveticaBold 11 textColor false,
     SOp.text ("  " ++ qa.2) .helveticaOblique 11 gray false]) ++
  [SOp.text "Análise e Recomendações"
      (if entries.isEmpty then stFont else Font.helveticaOblique) 14 primaryColor true,
   SOp.rect primaryColor 5,
   SOp.text analysis
      (if entries.isEmpty then stFont else Font.helveticaOblique) 11 textColor false]

set_option maxHeartbeats 2000000 in
theorem sigs_restChain (st : DocState) (entries : List (String × String))
    (analysis : String) (hp : st.pending = none) :
    sigs (restChain st entries analysis) =
      sigs st ++ restSigs st.font entries analysis := by
  simp only [restChain, sigs_drawText, sigs_drawTextAt, sigs_moveDown, sigs_setFill,
    sigs_setSize, sigs_setOpac, sigs_emit, sigs_qaFold, qaFold_font, qaFold_size,
    qaFold_pending, qaFold_fill,
    moveDown_x, moveDown_y, moveDown_font, moveDown_size, moveDown_fill, moveDown_opac,
    moveDown_pending, setFont_x, setFont_y, setFont_font, setFont_size, setFont_fill,
    setFont_opac, setFont_pending, setSize_x, setSize_y, setSize_font, setSize_size,
    setSize_fill, setSize_opac, setSize_pending, setFill_x, setFill_y, setFill_font,
    setFill_size, setFill_fill, setFill_opac, setFill_pending, setOpac_x, setOpac_y,
    setOpac_font, setOpac_size, setOpac_fill, setOpac_opac, setOpac_pending,
    emit_x, emit_y, emit_font, emit_size, emit_fill, emit_opac, emit_pending,
    drawText_x, drawText_font, drawText_size, drawText_fill, drawText_opac,
    drawText_pending, placeText_x, placeText_font, placeText_size, placeText_fill,
    placeText_opac, placeText_pending, sigOf, hp, Option.getD]
  simp [restSigs, ite_self]

@[simp] theorem sigs_initState : sigs initState = [] := rfl

@[simp] theorem initState_x : initState.x = pageMargin := rfl

@[simp] theorem initState_y : initState.y = pageMargin := rfl

@[simp] theorem initState_font : initState.font = Font.helvetica := rfl

@[simp] theorem initState_size : initState.size = 12 := rfl

@[simp] theorem initState_fill : initState.fill = "black" := rfl

@[simp] theorem initState_opac : initState.opac = 100 := rfl

@[simp] theorem initState_pending : initState.pending = none := rfl

/-- The signature list of everything the header band and identity block
draw before the timestamp line. -/
def preSigs (name : String) (email : Option String) (hasLogo : Bool) : List SOp :=
  [SOp.rect primaryColor 100] ++ (if hasLogo then [SOp.image] else []) ++
    [SOp.text "Assistente de Bem-Estar" .helvetica 20 "white" false] ++
    (match email with
     | some e =>
       [SOp.text ("Nome: " ++ name ++ "   |   Email: " ++ e) .helvetica 12 gray false]
     | none => [])

set_option maxHeartbeats 2000000 in
theorem sigs_preTs (name : String) (email : Option String) (hasLogo : Bool) :
    sigs (preTs name email hasLogo) = preSigs name email hasLogo := by
  cases email <;> cases hasLogo <;>
    simp [preTs, preSigs, sigOf, String.append_assoc]

set_option maxHeartbeats 2000000 in
theorem preTs_scalars (name : String) (email : Option String) (hasLogo : Bool) :
    (preTs name email hasLogo).x = 130 ∧
    (preTs name email hasLogo).font = Font.helvetica ∧
    (preTs name email hasLogo).size = 10 ∧
    (preTs name email hasLogo).fill = gray ∧
    (preTs name email hasLogo).pending =
      (match email with
       | some _ => none
       | none => some ("Nome: " ++ name)) := by
  cases email <;> cases hasLogo <;> simp [preTs]

/-- The complete signature list of the content pass. -/
def contentSigs (name : String) (email : Option String)
    (entries : List (String × String)) (analysis : String) (hasLogo : Bool)
    (tsContent : String) : List SOp :=
  preSigs name email hasLogo ++
    [SOp.text tsContent .helvetica 10 gray false] ++
    restSigs Font.helvetica entries analysis

theorem sigs_contentState (name : String) (email : Option String)
    (entries : List (String × String)) (analysis : String) (hasLogo : Bool)
    (tsContent : String) (tsLines : Nat) :
    sigs (contentState name email entries analysis hasLogo tsContent tsLines) =
      contentSigs name email entries analysis hasLogo tsContent := by
  have hpre := preTs_scalars name email hasLogo
  unfold contentState
  rw [sigs_restChain _ _ _ (by simp), sigs_placeText, sigs_preTs]
  simp [contentSigs, hpre.2.1, hpre.2.2.1, hpre.2.2.2.1]

theorem stampFrom_length (count : Nat) (f : Font) :
    ∀ (i : Nat) (pgs : List (List Op)), (stampFrom i count f pgs).length = pgs.length
  | _, [] => rfl
  | i, p :: ps => by
    simp [stampFrom, stampFrom_length count f (i + 1) ps]

theorem stampFrom_getElem (count : Nat) (f : Font) :
    ∀ (i : Nat) (pgs : List (List Op)) (j : Nat),
      (stampFrom i count f pgs)[j]? =
        (pgs[j]?).map (· ++ [footerOp (i + j) count f])
  | _, [], j => by simp [stampFrom]
  | i, p :: ps, 0 => by simp [stampFrom]
  | i, p :: ps, j + 1 => by
    simp only [stampFrom, List.getElem?_cons_succ,
      stampFrom_getElem count f (i + 1) ps j]
    have : i + 1 + j = i + (j + 1) := by omega
    rw [this]

/-- The geometry-free signatures of every command in a document,
page by page in order. -/
def docSigs (d : Document) : List SOp := d.flatten.map sigOf

/-- Select the question lines: bold text at the answers-loop font size. -/
def qSig : SOp → Option String
  | .text s f sz _ _ => if sz = 11 ∧ f = .helveticaBold then some s else none
  | _ => none

/-- Select the answer lines: oblique grey text at the answers-loop size. -/
def aSig : SOp → Option String
  | .text s f sz c _ => if sz = 11 ∧ f = .helveticaOblique ∧ c = gray then some s else none
  | _ => none

/-- Select the underlined section titles (font size 14). -/
def titleSig : SOp → Option String
  | .text s _ sz _ u => if sz = 14 ∧ u then some s else none
  | _ => none

/-- Select the logo image commands. -/
def imgSig : SOp → Option Unit
  | .image => some ()
  | _ => none

/-- Question lines of a document, in drawing order. -/
def questionsOf (d : Document) : List String := (docSigs d).filterMap qSig

/-- Answer lines of a document, in drawing order. -/
def answersOf (d : Document) : List String := (docSigs d).filterMap aSig

/-- Underlined section titles of a document, in drawing order. -/
def sectionTitlesOf (d : Document) : List String := (docSigs d).filterMap titleSig

/-- Logo images drawn anywhere in a document. -/
def logoOpsOf (d : Document) : List Unit := (docSigs d).filterMap imgSig

theorem filterMap_stampFrom {α : Type} (P : SOp → Option α) (count : Nat) (f : Font)
    (hP : ∀ j, P (sigOf (footerOp j count f)) = none) :
    ∀ (i : Nat) (pgs : List (List Op)),
      ((stampFrom i count f pgs).flatten.map sigOf).filterMap P =
        (pgs.flatten.map sigOf).filterMap P
  | _, [] => rfl
  | i, p :: ps => by
    simp only [stampFrom, List.flatten_cons, List.map_append, List.filterMap_append,
      filterMap_stampFrom P count f hP (i + 1) ps]
    simp [hP i]

theorem filterMap_docSigs_buildCore {α : Type} (P : SOp → Option α)
    (hP : ∀ j count f, P (sigOf (footerOp j count f)) = none)
    (name : String) (email : Option String) (entries : List (String × String))
    (analysis : String) (hasLogo : Bool) (tsContent : String) (tsLines : Nat) :
    (docSigs (buildCore name email entries analysis hasLogo tsContent tsLines)).filterMap P =
      (contentSigs name email entries analysis hasLogo tsContent).filterMap P := by
  unfold buildCore docSigs
  rw [filterMap_stampFrom P _ _ (fun j => hP j _ _)]
  have h1 : ((contentState name email entries analysis hasLogo tsContent tsLines).pages ++
      [(contentState name email entries analysis hasLogo tsContent tsLines).cur]).flatten =
      allOps (contentState name email entries analysis hasLogo tsContent tsLines) := by
    simp [allOps]
  have h2 : (allOps (contentState name email entries analysis hasLogo tsContent tsLines)).map sigOf =
      sigs (contentState name email entries analysis hasLogo tsContent tsLines) := rfl
  rw [h1, h2, sigs_contentState]

theorem qSig_flatMap (l : List (String × String)) :
    (l.flatMap (fun qa =>
      [SOp.text ("• " ++ qa.1) .helveticaBold 11 textColor false,
       SOp.text ("  " ++ qa.2) .helveticaOblique 11 gray false])).filterMap qSig =
      l.map (fun qa => "• " ++ qa.1) := by
  induction l with
  | nil => rfl
  | cons qa l ih => simp [qSig, ih]

@[simp] theorem textColor_ne_gray : (textColor = gray) = False := by
  simp only [textColor, gray]
  decide

theorem aSig_flatMap (l : List (String × String)) :
    (l.flatMap (fun qa =>
      [SOp.text ("• " ++ qa.1) .helveticaBold 11 textColor false,
       SOp.text ("  " ++ qa.2) .helveticaOblique 11 gray false])).filterMap aSig =
      l.map (fun qa => "  " ++ qa.2) := by
  induction l with
  | nil => rfl
  | cons qa l ih => simp [aSig, ih]

theorem titleSig_flatMap (l : List (String × String)) :
    (l.flatMap (fun qa =>
      [SOp.text ("• " ++ qa.1) .helveticaBold 11 textColor false,
       SOp.text ("  " ++ qa.2) .helveticaOblique 11 gray false])).filterMap titleSig = [] := by
  induction l with
  | nil => rfl
  | cons qa l ih => simp [titleSig, ih]

theorem imgSig_flatMap (l : List (String × String)) :
    (l.flatMap (fun qa =>
      [SOp.text ("• " ++ qa.1) .helveticaBold 11 textColor false,
       SOp.text ("  " ++ qa.2) .helveticaOblique 11 gray false])).filterMap imgSig = [] := by
  induction l with
  | nil => rfl
  | cons qa l ih => simp [imgSig, ih]

theorem questionsOf_buildDoc (name : String) (email : Option String)
    (responses : Option (List (String × String))) (analysis : String)
    (hasLogo : Bool) (ts : String) :
    questionsOf (buildDoc name email responses analysis hasLogo ts) =
      (jsEntries (responses.getD [])).map (fun qa => "• " ++ qa.1) := by
  unfold questionsOf buildDoc
  rw [filterMap_docSigs_buildCore qSig (fun j count f => by simp [qSig, footerOp, sigOf])]
  cases email <;> cases hasLogo <;>
    by_cases he : (jsEntries (responses.getD [])).isEmpty <;>
      simp [contentSigs, preSigs, restSigs, qSig, qSig_flatMap, he]

theorem answersOf_buildDoc (name : String) (email : Option String)
    (responses : Option (List (String × String))) (analysis : String)
    (hasLogo : Bool) (ts : String) :
    answersOf (buildDoc name email responses analysis hasLogo ts) =
      (jsEntries (responses.getD [])).map (fun qa => "  " ++ qa.2) := by
  unfold answersOf buildDoc
  rw [filterMap_docSigs_buildCore aSig (fun j count f => by simp [aSig, footerOp, sigOf])]
  cases email <;> cases hasLogo <;>
    by_cases he : (jsEntries (responses.getD [])).isEmpty <;>
      simp [contentSigs, preSigs, restSigs, aSig, aSig_flatMap, he]

theorem sectionTitlesOf_buildDoc (name : String) (email : Option String)
    (responses : Option (List (String × String))) (analysis : String)
    (hasLogo : Bool) (ts : String) :
    sectionTitlesOf (buildDoc name email responses analysis hasLogo ts) =
      ["Respostas do Formulário", "Análise e Recomendações"] := by
  unfold sectionTitlesOf buildDoc
  rw [filterMap_docSigs_buildCore titleSig (fun j count f => by simp [titleSig, footerOp, sigOf])]
  cases email <;> cases hasLogo <;>
    by_cases he : (jsEntries (responses.getD [])).isEmpty <;>
      simp [contentSigs, preSigs, restSigs, titleSig, titleSig_flatMap, he]

theorem logoOpsOf_buildDoc (name : String) (email : Option String)
    (responses : Option (List (String × String))) (analysis : String)
    (hasLogo : Bool) (ts : String) :
    logoOpsOf (buildDoc name email responses analysis hasLogo ts) =
      if hasLogo then [()] else [] := by
  unfold logoOpsOf buildDoc
  rw [filterMap_docSigs_buildCore imgSig (fun j count f => by simp [imgSig, footerOp, sigOf])]
  cases email <;> cases hasLogo <;>
    by_cases he : (jsEntries (responses.getD [])).isEmpty <;>
      simp [contentSigs, preSigs, restSigs, imgSig, imgSig_flatMap, he]

/-- Blank the characters of the generation-timestamp line: the timestamp's
line is the only text the composer draws at font size 10. -/
def eraseOp : Op → Op
  | .text s x y w f sz c u =>
    if sz = 10 then .text "" x y w f sz c u else .text s x y w f sz c u
  | op => op

/-- Blank the timestamp characters everywhere in a document. -/
def eraseDoc (d : Document) : Document := d.map (List.map eraseOp)

/-- Blank the timestamp characters in every page the state has recorded. -/
def eraseSt (st : DocState) : DocState :=
  { st with cur := st.cur.map eraseOp, pages := st.pages.map (List.map eraseOp) }

@[simp] theorem eraseSt_x (st : DocState) : (eraseSt st).x = st.x := rfl

@[simp] theorem eraseSt_y (st : DocState) : (eraseSt st).y = st.y := rfl

@[simp] theorem eraseSt_font (st : DocState) : (eraseSt st).font = st.font := rfl

@[simp] theorem eraseSt_size (st : DocState) : (eraseSt st).size = st.size := rfl

@[simp] theorem eraseSt_fill (st : DocState) : (eraseSt st).fill = st.fill := rfl

@[simp] theorem eraseSt_opac (st : DocState) : (eraseSt st).opac = st.opac := rfl

@[simp] theorem eraseSt_pending (st : DocState) :
    (eraseSt st).pending = st.pending := rfl

theorem eraseSt_moveDown (st : DocState) (t : Nat) :
    eraseSt (moveDown st t) = moveDown (eraseSt st) t := rfl

theorem eraseSt_setFont (st : DocState) (f : Font) :
    eraseSt (setFont st f) = setFont (eraseSt st) f := rfl

theorem eraseSt_setSize (st : DocState) (n : Nat) :
    eraseSt (setSize st n) = setSize (eraseSt st) n := rfl

theorem eraseSt_setFill (st : DocState) (c : String) :
    eraseSt (setFill st c) = setFill (eraseSt st) c := rfl

theorem eraseSt_setOpac (st : DocState) (n : Nat) :
    eraseSt (setOpac st n) = setOpac (eraseSt st) n := rfl

theorem eraseSt_emit (st : DocState) (op : Op) :
    eraseSt (emit st op) = emit (eraseSt st) (eraseOp op) := by
  simp [eraseSt, emit]

theorem eraseSt_flushPage (st : DocState) :
    eraseSt (flushPage st) = flushPage (eraseSt st) := by
  simp [eraseSt, flushPage]

theorem eraseSt_advanceLines (lh : Nat) :
    ∀ (n : Nat) (st : DocState),
      eraseSt (advanceLines st lh n) = advanceLines (eraseSt st) lh n
  | 0, _ => rfl
  | n + 1, st => by
    rw [advanceLines_succ, advanceLines_succ, eraseSt_advanceLines lh n]
    by_cases h : st.y + lh > bottomLimit <;>
      simp [h, eraseSt, flushPage]

theorem rel_flushPage {s1 s2 : DocState} (h : eraseSt s1 = eraseSt s2) :
    eraseSt (flushPage s1) = eraseSt (flushPage s2) := by
  rw [eraseSt_flushPage, eraseSt_flushPage, h]

theorem rel_advanceLines {s1 s2 : DocState} (h : eraseSt s1 = eraseSt s2)
    (lh n : Nat) :
    eraseSt (advanceLines s1 lh n) = eraseSt (advanceLines s2 lh n) := by
  rw [eraseSt_advanceLines, eraseSt_advanceLines, h]

theorem eraseSt_mkstep (X : DocState) (op : Op) :
    eraseSt { X with cur := X.cur ++ [op], pending := none } =
      { eraseSt X with cur := (eraseSt X).cur ++ [eraseOp op], pending := none } := by
  simp [eraseSt]

theorem rel_placeText_mixed {s1 s2 : DocState} (h : eraseSt s1 = eraseSt s2)
    (hsz : s1.size = 10) (c1 c2 : String) (w n : Nat) (u : Bool) :
    eraseSt (placeText s1 c1 w n u) = eraseSt (placeText s2 c2 w n u) := by
  have hss : s1.size = s2.size := by
    have := congrArg DocState.size h
    simpa using this
  have hyy : s1.y = s2.y := by
    have := congrArg DocState.y h
    simpa using this
  unfold placeText
  dsimp only
  rw [hss, hyy]
  apply rel_advanceLines ?_ _ n
  have hflush : eraseSt (if s2.y + lineH s2.size > bottomLimit then flushPage s1 else s1) =
      eraseSt (if s2.y + lineH s2.size > bottomLimit then flushPage s2 else s2) := by
    by_cases hb : s2.y + lineH s2.size > bottomLimit
    · rw [if_pos hb, if_pos hb]; exact rel_flushPage h
    · rw [if_neg hb, if_neg hb]; exact h
  rw [eraseSt_mkstep, eraseSt_mkstep, hflush]
  have hsz1 : (if s2.y + lineH s2.size > bottomLimit then flushPage s1 else s1).size = 10 := by
    by_cases hb : s2.y + lineH s2.size > bottomLimit
    · rw [if_pos hb, flushPage_size]; exact hsz
    · rw [if_neg hb]; exact hsz
  have hsz2 : (if s2.y + lineH s2.size > bottomLimit then flushPage s2 else s2).size = 10 := by
    have h10 : s2.size = 10 := hss ▸ hsz
    by_cases hb : s2.y + lineH s2.size > bottomLimit
    · rw [if_pos hb, flushPage_size]; exact h10
    · rw [if_neg hb]; exact h10
  have hope : eraseOp (Op.text c1
      (if s2.y + lineH s2.size > bottomLimit then flushPage s1 else s1).x
      (if s2.y + lineH s2.size > bottomLimit then flushPage s1 else s1).y w
      (if s2.y + lineH s2.size > bottomLimit then flushPage s1 else s1).font
      (if s2.y + lineH s2.size > bottomLimit then flushPage s1 else s1).size
      (if s2.y + lineH s2.size > bottomLimit then flushPage s1 else s1).fill u) =
      eraseOp (Op.text c2
      (if s2.y + lineH s2.size > bottomLimit then flushPage s2 else s2).x
      (if s2.y + lineH s2.size > bottomLimit then flushPage s2 else s2).y w
      (if s2.y + lineH s2.size > bottomLimit then flushPage s2 else s2).font
      (if s2.y + lineH s2.size > bottomLimit then flushPage s2 else s2).size
      (if s2.y + lineH s2.size > bottomLimit then flushPage s2 else s2).fill u) := by
    have e1 := congrArg DocState.x hflush
    have e2 := congrArg DocState.y hflush
    have e3 := congrArg DocState.font hflush
    have e4 := congrArg DocState.fill hflush
    simp only [eraseSt_x, eraseSt_y, eraseSt_font, eraseSt_fill] at e1 e2 e3 e4
    simp [eraseOp, hsz1, hsz2, e1, e2, e3, e4]
  rw [hope]

theorem rel_placeText {s1 s2 : DocState} (h : eraseSt s1 = eraseSt s2)
    (c : String) (w n : Nat) (u : Bool) :
    eraseSt (placeText s1 c w n u) = eraseSt (placeText s2 c w n u) := by
  have hss : s1.size = s2.size := by
    have := congrArg DocState.size h
    simpa using this
  have hyy : s1.y = s2.y := by
    have := congrArg DocState.y h
    simpa using this
  unfold placeText
  dsimp only
  rw [hss, hyy]
  apply rel_advanceLines ?_ _ n
  have hflush : eraseSt (if s2.y + lineH s2.size > bottomLimit then flushPage s1 else s1) =
      eraseSt (if s2.y + lineH s2.size > bottomLimit then flushPage s2 else s2) := by
    by_cases hb : s2.y + lineH s2.size > bottomLimit
    · rw [if_pos hb, if_pos hb]; exact rel_flushPage h
    · rw [if_neg hb, if_neg hb]; exact h
  rw [eraseSt_mkstep, eraseSt_mkstep, hflush]
  have hope : eraseOp (Op.text c
      (if s2.y + lineH s2.size > bottomLimit then flushPage s1 else s1).x
      (if s2.y + lineH s2.size > bottomLimit then flushPage s1 else s1).y w
      (if s2.y + lineH s2.size > bottomLimit then flushPage s1 else s1).font
      (if s2.y + lineH s2.size > bottomLimit then flushPage s1 else s1).size
      (if s2.y + lineH s2.size > bottomLimit then flushPage s1 else s1).fill u) =
      eraseOp (Op.text c
      (if s2.y + lineH s2.size > bottomLimit then flushPage s2 else s2).x
      (if s2.y + lineH s2.size > bottomLimit then flushPage s2 else s2).y w
      (if s2.y + lineH s2.size > bottomLimit then flushPage s2 else s2).font
      (if s2.y + lineH s2.size > bottomLimit then flushPage s2 else s2).size
      (if s2.y + lineH s2.size > bottomLimit then flushPage s2 else s2).fill u) := by
    have e1 := congrArg DocState.x hflush
    have e2 := congrArg DocState.y hflush
    have e3 := congrArg DocState.font hflush
    have e4 := congrArg DocState.fill hflush
    have e5 := congrArg DocState.size hflush
    simp only [eraseSt_x, eraseSt_y, eraseSt_font, eraseSt_fill, eraseSt_size]
      at e1 e2 e3 e4 e5
    simp [eraseOp, e1, e2, e3, e4, e5]
  rw [hope]

theorem rel_drawText {s1 s2 : DocState} (h : eraseSt s1 = eraseSt s2)
    (s : String) (u : Bool) :
    eraseSt (drawText s1 s u) = eraseSt (drawText s2 s u) := by
  have hp : s1.pending = s2.pending := by
    have := congrArg DocState.pending h
    simpa using this
  have hx : s1.x = s2.x := by
    have := congrArg DocState.x h
    simpa using this
  have hsz : s1.size = s2.size := by
    have := congrArg DocState.size h
    simpa using this
  unfold drawText
  dsimp only
  rw [hp, hx, hsz]
  exact rel_placeText h _ _ _ _

theorem rel_drawTextAt {s1 s2 : DocState} (h : eraseSt s1 = eraseSt s2)
    (s : String) (x : Nat) {y1 y2 : Nat} (hy : y1 = y2) (wo : Option Nat) (u : Bool) :
    eraseSt (drawTextAt s1 s x y1 wo u) = eraseSt (drawTextAt s2 s x y2 wo u) := by
  subst hy
  have hp : s1.pending = s2.pending := by
    have := congrArg DocState.pending h
    simpa using this
  have hsz : s1.size = s2.size := by
    have := congrArg DocState.size h
    simpa using this
  have hrel : eraseSt { s1 with x := x, y := y1 } = eraseSt { s2 with x := x, y := y1 } := by
    have h2 := congrArg DocState.cur h
    have h3 := congrArg DocState.pages h
    have h4 := congrArg DocState.font h
    have h5 := congrArg DocState.size h
    have h6 := congrArg DocState.fill h
    have h7 := congrArg DocState.opac h
    have h8 := congrArg DocState.pending h
    simp only [eraseSt_font, eraseSt_size, eraseSt_fill, eraseSt_opac,
      eraseSt_pending] at h4 h5 h6 h7 h8
    simp only [eraseSt] at h2 h3 ⊢
    simp [h2, h3, h4, h5, h6, h7, h8]
  unfold drawTextAt
  dsimp only
  have harg1 : s1.pending.getD "" = s2.pending.getD "" := by rw [hp]
  have harg2 : charW s1.size = charW s2.size := by rw [hsz]
  rw [harg1, harg2]
  exact rel_placeText hrel _ _ _ _

theorem rel_moveDown {s1 s2 : DocState} (h : eraseSt s1 = eraseSt s2) (t : Nat) :
    eraseSt (moveDown s1 t) = eraseSt (moveDown s2 t) := by
  rw [eraseSt_moveDown, eraseSt_moveDown, h]

theorem rel_setFont {s1 s2 : DocState} (h : eraseSt s1 = eraseSt s2) (f : Font) :
    eraseSt (setFont s1 f) = eraseSt (setFont s2 f) := by
  rw [eraseSt_setFont, eraseSt_setFont, h]

theorem rel_setSize {s1 s2 : DocState} (h : eraseSt s1 = eraseSt s2) (n : Nat) :
    eraseSt (setSize s1 n) = eraseSt (setSize s2 n) := by
  rw [eraseSt_setSize, eraseSt_setSize, h]

theorem rel_setFill {s1 s2 : DocState} (h : eraseSt s1 = eraseSt s2) (c : String) :
    eraseSt (setFill s1 c) = eraseSt (setFill s2 c) := by
  rw [eraseSt_setFill, eraseSt_setFill, h]

theorem rel_setOpac {s1 s2 : DocState} (h : eraseSt s1 = eraseSt s2) (n : Nat) :
    eraseSt (setOpac s1 n) = eraseSt (setOpac s2 n) := by
  rw [eraseSt_setOpac, eraseSt_setOpac, h]

theorem rel_emit {s1 s2 : DocState} (h : eraseSt s1 = eraseSt s2) {op1 op2 : Op}
    (hop : eraseOp op1 = eraseOp op2) :
    eraseSt (emit s1 op1) = eraseSt (emit s2 op2) := by
  rw [eraseSt_emit, eraseSt_emit, h, hop]

theorem rel_qaStep {s1 s2 : DocState} (h : eraseSt s1 = eraseSt s2)
    (qa : String × String) :
    eraseSt (qaStep s1 qa) = eraseSt (qaStep s2 qa) := by
  unfold qaStep
  exact rel_moveDown (rel_setFill (rel_drawText (rel_setFill (rel_setFont
    (rel_drawText (rel_setFont h _) _ _) _) _) _ _) _) _

theorem rel_qaFold (l : List (String × String)) :
    ∀ {s1 s2 : DocState}, eraseSt s1 = eraseSt s2 →
      eraseSt (l.foldl qaStep s1) = eraseSt (l.foldl qaStep s2) := by
  induction l with
  | nil => intro s1 s2 h; simpa using h
  | cons qa l ih =>
    intro s1 s2 h
    rw [List.foldl_cons, List.foldl_cons]
    exact ih (rel_qaStep h qa)

theorem relY {s1 s2 : DocState} (h : eraseSt s1 = eraseSt s2) : s1.y = s2.y := by
  have := congrArg DocState.y h
  simpa using this

theorem rel_emit_stroke {s1 s2 : DocState} (h : eraseSt s1 = eraseSt s2)
    (a w0 h0 : Nat) (c : String) :
    eraseSt (emit s1 (Op.stroke a (s1.y - 5) w0 h0 c)) =
      eraseSt (emit s2 (Op.stroke a (s2.y - 5) w0 h0 c)) :=
  rel_emit h (by rw [relY h])

theorem rel_emit_rect {s1 s2 : DocState} (h : eraseSt s1 = eraseSt s2)
    (a b : Nat) (c : String) :
    eraseSt (emit (setOpac s1 5) (Op.rect a (s1.y - 8) boxWidth b c (setOpac s1 5).opac)) =
      eraseSt (emit (setOpac s2 5) (Op.rect a (s2.y - 8) boxWidth b c (setOpac s2 5).opac)) :=
  rel_emit (rel_setOpac h 5) (by rw [relY h]; simp)

theorem rel_restChain {s1 s2 : DocState} (h : eraseSt s1 = eraseSt s2)
    (entries : List (String × String)) (analysis : String) :
    eraseSt (restChain s1 entries analysis) = eraseSt (restChain s2 entries analysis) := by
  unfold restChain
  dsimp only
  have h1 := rel_moveDown h 15
  have h2 := rel_setFill h1 primaryColor
  have h3 := rel_setSize h2 14
  have h4 := rel_drawText h3 "Respostas do Formulário" true
  have h5 := rel_moveDown h4 5
  have h6 := rel_setFill h5 textColor
  have h7 := rel_setSize h6 11
  have h8 := rel_emit_stroke h7 45 (pageWidth - 90) 0 primaryColor
  have h9 := rel_moveDown h8 5
  have h10 := rel_qaFold entries h9
  have h11 := rel_moveDown h10 12
  have h12 := rel_setFill h11 primaryColor
  have h13 := rel_setSize h12 14
  have h14 := rel_drawText h13 "Análise e Recomendações" true
  have h15 := rel_moveDown h14 5
  have h16 := rel_setSize h15 11
  have h17 := rel_setFill h16 textColor
  have hy17 := relY h17
  have h19 := rel_emit_rect h17 45 (analysisMeasuredHeight analysis + 16) primaryColor
  have h20 := rel_setOpac h19 100
  have h21 := rel_setFill h20 textColor
  have h22 := rel_drawTextAt h21 analysis 55 hy17 (some (boxWidth - 20)) false
  exact rel_moveDown h22 20

theorem rel_contentState (name : String) (email : Option String)
    (entries : List (String × String)) (analysis : String) (hasLogo : Bool)
    (L1 L2 : String) (tl : Nat) :
    eraseSt (contentState name email entries analysis hasLogo L1 tl) =
      eraseSt (contentState name email entries analysis hasLogo L2 tl) := by
  unfold contentState
  have hsz : (preTs name email hasLogo).size = 10 :=
    (preTs_scalars name email hasLogo).2.2.1
  exact rel_restChain (rel_placeText_mixed rfl hsz L1 L2 _ tl false) entries analysis

theorem eraseOp_footerOp (j count : Nat) (f : Font) :
    eraseOp (footerOp j count f) = footerOp j count f := by
  simp [eraseOp, footerOp]

theorem eraseDoc_stampFrom (count : Nat) (f : Font) :
    ∀ (i : Nat) (pgs : List (List Op)),
      eraseDoc (stampFrom i count f pgs) =
        stampFrom i count f (pgs.map (List.map eraseOp))
  | _, [] => rfl
  | i, p :: ps => by
    have ih := eraseDoc_stampFrom count f (i + 1) ps
    simp only [eraseDoc] at ih
    simp only [stampFrom, eraseDoc, List.map_cons, List.map_append]
    rw [ih]
    simp [eraseOp_footerOp i count f]

theorem buildCore_determinism (name : String) (email : Option String)
    (entries : List (String × String)) (analysis : String) (hasLogo : Bool)
    (L1 L2 : String) (tl : Nat) :
    (buildCore name email entries analysis hasLogo L1 tl).length =
      (buildCore name email entries analysis hasLogo L2 tl).length ∧
    eraseDoc (buildCore name email entries analysis hasLogo L1 tl) =
      eraseDoc (buildCore name email entries analysis hasLogo L2 tl) := by
  have hrel := rel_contentState name email entries analysis hasLogo L1 L2 tl
  have hpages := congrArg DocState.pages hrel
  have hcur := congrArg DocState.cur hrel
  have hfont : (contentState name email entries analysis hasLogo L1 tl).font =
      (contentState name email entries analysis hasLogo L2 tl).font := by
    have := congrArg DocState.font hrel
    simpa using this
  simp only [eraseSt] at hpages hcur
  have hlen : (contentState name email entries analysis hasLogo L1 tl).pages.length =
      (contentState name email entries analysis hasLogo L2 tl).pages.length := by
    have := congrArg List.length hpages
    simpa using this
  constructor
  · unfold buildCore
    rw [stampFrom_length, stampFrom_length]
    simp [hlen]
  · unfold buildCore
    rw [eraseDoc_stampFrom, eraseDoc_stampFrom]
    simp only [List.length_append, List.length_cons, List.length_nil, hlen, hfont,
      List.map_append, List.map_cons, List.map_nil, hpages, hcur]

theorem insertByNum_length (x : String × String) :
    ∀ (l : List (String × String)), (insertByNum x l).length = l.length + 1
  | [] => rfl
  | y :: ys => by
    by_cases h : keyNum x ≤ keyNum y <;>
      simp [insertByNum, h, insertByNum_length x ys]

theorem sortByNum_length :
    ∀ (l : List (String × String)), (sortByNum l).length = l.length
  | [] => rfl
  | x :: xs => by
    simp [sortByNum, insertByNum_length, sortByNum_length xs]

theorem filter_split_length {α : Type} (p : α → Bool) :
    ∀ (l : List α), (l.filter p).length + (l.filter (fun a => !p a)).length = l.length
  | [] => rfl
  | a :: l => by
    by_cases h : p a <;>
      simp [List.filter_cons, h, ← filter_split_length p l] <;> omega

theorem jsEntries_length (l : List (String × String)) :
    (jsEntries l).length = l.length := by
  simp only [jsEntries, List.length_append, sortByNum_length]
  exact filter_split_length (fun p => isArrayIndex p.1) l

theorem jsEntries_of_no_index (l : List (String × String))
    (h : l.all (fun p => !isArrayIndex p.1) = true) : jsEntries l = l := by
  rw [List.all_eq_true] at h
  have h1 : l.filter (fun p => isArrayIndex p.1) = [] := by
    rw [List.filter_eq_nil]
    intro a ha
    have := h a ha
    simp at this
    simp [this]
  have h2 : l.filter (fun p => !isArrayIndex p.1) = l := by
    rw [List.filter_eq_self]
    intro a ha
    exact h a ha
  simp [jsEntries, h1, h2, sortByNum]

theorem replaceWsAux_no_ws :
    ∀ (l : List Char) (b : Bool) (c : Char), c ∈ replaceWsAux b l → isJsWs c = false
  | [], _, c => by intro hc; simp [replaceWsAux] at hc
  | d :: rest, b, c => by
    intro hc
    rw [replaceWsAux] at hc
    by_cases hd : isJsWs d
    · rw [if_pos hd] at hc
      by_cases hb : b
      · rw [if_pos hb] at hc
        exact replaceWsAux_no_ws rest true c hc
      · rw [if_neg hb] at hc
        rcases List.mem_cons.mp hc with h1 | h1
        · subst h1; decide
        · exact replaceWsAux_no_ws rest true c h1
    · rw [if_neg hd] at hc
      rcases List.mem_cons.mp hc with h1 | h1
      · subst h1; simpa using hd
      · exact replaceWsAux_no_ws rest false c h1

theorem jsReplaceWs_no_ws (s : String) :
    (jsReplaceWs s).data.all (fun c => !isJsWs c) = true := by
  rw [List.all_eq_true]
  intro c hc
  have : isJsWs c = false := replaceWsAux_no_ws s.data false c hc
  simp [this]

/-- The document of a successful composition result (a dummy otherwise). -/
def docOf : Except RenderError Document → Document
  | .ok d => d
  | .error _ => []

/-- The document carried by a PDF response (a dummy otherwise). -/
def pdfDoc : Resp → Document
  | .pdf _ d => d
  | _ => []

theorem stamped_pages (pgs : List (List Op)) (f : Font) (i : Nat)
    (hi : i < pgs.length) :
    ∃ pg, (stampFrom 0 pgs.length f pgs)[i]? = some pg ∧
      pg.getLast? = some (footerOp i pgs.length f) := by
  refine ⟨pgs[i] ++ [footerOp i pgs.length f], ?_, List.getLast?_concat _⟩
  rw [stampFrom_getElem, List.getElem?_eq_getElem hi, Nat.zero_add]
  rfl

theorem buildDoc_pages (name : String) (email : Option String)
    (responses : Option (List (String × String))) (analysis : String)
    (hasLogo : Bool) (ts : String) :
    0 < (buildDoc name email responses analysis hasLogo ts).length ∧
    ∀ i, i < (buildDoc name email responses analysis hasLogo ts).length →
      ∃ fnt pg, (buildDoc name email responses analysis hasLogo ts)[i]? = some pg ∧
        pg.getLast? = some (footerOp i (buildDoc name email responses analysis hasLogo ts).length fnt) := by
  unfold buildDoc buildCore
  dsimp only
  rw [stampFrom_length]
  constructor
  · simp
  · intro i hi
    exact ⟨_, stamped_pages _ _ i hi⟩

theorem generatePDF_ok_buildDoc (name : String) (email : Option String)
    (responses : Option (List (String × String))) (analysis : String)
    (logo : Option (List Nat)) (ts : String) (d : Document)
    (hd : generatePDFBuffer name email responses analysis logo ts = .ok d) :
    ∃ hasLogo, d = buildDoc name email responses analysis hasLogo ts := by
  cases logo with
  | none =>
    refine ⟨false, ?_⟩
    simpa [generatePDFBuffer] using hd.symm
  | some bytes =>
    by_cases him : isPNG bytes || isJPEG bytes
    · refine ⟨true, ?_⟩
      simp only [generatePDFBuffer, him, if_true] at hd
      simpa using hd.symm
    · simp [generatePDFBuffer, him] at hd

/-- An analysis string on which the highlight rectangle under-covers the
drawn text: four words of 49 characters each wrap two-per-line at the
measured width but one-per-line at the narrower drawing width. -/
def clipAnalysis : String :=
  String.intercalate " " (List.replicate 4 (String.mk (List.replicate 49 'a')))

set_option maxRecDepth 100000 in
set_option maxHeartbeats 2000000 in
/-- C1: the claim that the highlight rectangle's height is at least the
rendered height of the analysis text at the width the text is actually
drawn with (plus the fixed padding) fails on the code: the measurement
pass runs at `boxWidth` while the text is drawn at `boxWidth - 20`, so on
`clipAnalysis` the text renders strictly taller than the whole rectangle
and is clipped below it. -/
theorem c1_highlight_box_underflow :
    analysisRectHeight clipAnalysis < analysisDrawnHeight clipAnalysis := by
  decide

set_option maxRecDepth 1000000 in
set_option maxHeartbeats 2000000 in
/-- C2 counterexample: submitting the answers `[("2","b"), ("1","a")]` in
that order renders the question/answer pairs reordered, because JavaScript
objects iterate array-index keys in ascending numeric order; the rendered
questions are therefore not in submission order. -/
theorem c2_submission_order_not_preserved :
    questionsOf (docOf (generatePDFBuffer "Ana" none
        (some [("2", "b"), ("1", "a")]) "ok" none "ts")) ≠
      [("2", "b"), ("1", "a")].map (fun qa => "• " ++ qa.1) := by
  decide

set_option maxHeartbeats 1000000 in
/-- C2 amended: the rendered document contains exactly one question line and
one answer line per entry, ordered by JavaScript's object-property order
(array-index keys ascending first, then the rest in submission order); when
no key is an array-index string the submission order is preserved. -/
theorem c2_rendered_in_js_entry_order (name : String) (email : Option String)
    (l : List (String × String)) (analysis ts : String) (d : Document)
    (hd : generatePDFBuffer name email (some l) analysis none ts = .ok d) :
    questionsOf d = (jsEntries l).map (fun qa => "• " ++ qa.1) ∧
    answersOf d = (jsEntries l).map (fun qa => "  " ++ qa.2) ∧
    (jsEntries l).length = l.length ∧
    (l.all (fun p => !isArrayIndex p.1) = true → jsEntries l = l) := by
  have hde : Except.ok (buildDoc name email (some l) analysis false ts) =
      (Except.ok d : Except RenderError Document) := hd
  obtain rfl := (Except.ok.inj hde).symm
  refine ⟨?_, ?_, jsEntries_length l, jsEntries_of_no_index l⟩
  · simpa using questionsOf_buildDoc name email (some l) analysis false ts
  · simpa using answersOf_buildDoc name email (some l) analysis false ts

set_option maxHeartbeats 1000000 in
/-- Witness for C2 (amended) at a concrete request. -/
theorem c2_rendered_in_js_entry_order_witness :
    generatePDFBuffer "Ana" none (some [("Sono", "5"), ("Treino", "x")]) "ok" none "ts" =
      .ok (buildDoc "Ana" none (some [("Sono", "5"), ("Treino", "x")]) "ok" false "ts") ∧
    questionsOf (buildDoc "Ana" none (some [("Sono", "5"), ("Treino", "x")]) "ok" false "ts") =
      (jsEntries [("Sono", "5"), ("Treino", "x")]).map (fun qa => "• " ++ qa.1) :=
  ⟨rfl, (c2_rendered_in_js_entry_order "Ana" none [("Sono", "5"), ("Treino", "x")]
    "ok" "ts" _ rfl).1⟩

set_option maxHeartbeats 1000000 in
/-- C3: every document the composer produces has at least one page, and the
page at 0-based position `i` ends with the centered footer reading
`"Assistente de Bem-Estar — Página (i+1) de count"` where `count` is the
same total page count for every page, equal to the number of pages
produced; the footer is the last command of each page because it is stamped
only after all content is drawn. -/
theorem c3_footer_pagination (name : String) (email : Option String)
    (responses : Option (List (String × String))) (analysis : String)
    (logo : Option (List Nat)) (ts : String) (d : Document)
    (hd : generatePDFBuffer name email responses analysis logo ts = .ok d) :
    0 < d.length ∧
    ∀ i, i < d.length → ∃ fnt pg, d[i]? = some pg ∧
      pg.getLast? = some (footerOp i d.length fnt) := by
  obtain ⟨hl, rfl⟩ := generatePDF_ok_buildDoc name email responses analysis logo ts d hd
  exact buildDoc_pages name email responses analysis hl ts

set_option maxHeartbeats 1000000 in
/-- Witness for C3 at a concrete one-page request. -/
theorem c3_footer_pagination_witness :
    generatePDFBuffer "Ana" none (some [("Sono", "5")]) "Short report." none "ts" =
      .ok (buildDoc "Ana" none (some [("Sono", "5")]) "Short report." false "ts") ∧
    0 < (buildDoc "Ana" none (some [("Sono", "5")]) "Short report." false "ts").length :=
  ⟨rfl, (c3_footer_pagination "Ana" none (some [("Sono", "5")]) "Short report."
    none "ts" _ rfl).1⟩

set_option maxRecDepth 1000000 in
set_option maxHeartbeats 2000000 in
/-- C4 counterexample: a logo payload that matches the data-URL pattern but
decodes to bytes that are no known image format (here base64 of `ABCD`) is
written to disk, read back by the composer, and makes the drawing library
throw, so the whole request fails with the generic 500 response instead of
succeeding without a logo. -/
theorem c4_undecodable_logo_is_fatal :
    (analyzeHandler ⟨none, Except.error "net", "ts"⟩
        ⟨some "Ana", none, none, some "data:image/png;base64,QUJDRA=="⟩).1 =
      Resp.serverError "Erro interno no servidor" := by
  decide

set_option maxHeartbeats 1000000 in
/-- C4 amended: a logo payload that fails the data-URL pattern (so no file
is ever written) is non-fatal: the request still succeeds with a complete,
page-numbered document in which no logo is drawn.  A payload that matches
the pattern but is not a decodable image is fatal (`RenderError`, see the
counterexample). -/
theorem c4_unmatched_logo_payload_nonfatal (env : Env) (req : ReqBody)
    (name s : String) (h1 : req.name = some name)
    (h2 : isFalsyName req.name = false) (h3 : req.logoBase64 = some s)
    (h4 : parseDataUrl s = none) :
    (analyzeHandler env req).1 =
      Resp.pdf ("relatorio_" ++ jsReplaceWs name ++ ".pdf")
        (pdfDoc (analyzeHandler env req).1) ∧
    logoOpsOf (pdfDoc (analyzeHandler env req).1) = [] ∧
    0 < (pdfDoc (analyzeHandler env req).1).length := by
  have hlogo : decodeLogo req.logoBase64 = none := by
    rw [h3]
    unfold decodeLogo
    by_cases he : s.data.isEmpty <;> simp [he, h4]
  unfold analyzeHandler
  rw [if_neg (by simp [h2])]
  dsimp only
  rw [hlogo, h1]
  simp only [Option.getD_some, generatePDFBuffer, pdfDoc]
  refine ⟨?_, ?_, ?_⟩
  · trivial
  · simpa using logoOpsOf_buildDoc name req.email req.responses _ false env.timestamp
  · exact (buildDoc_pages name req.email req.responses _ false env.timestamp).1

set_option maxRecDepth 1000000 in
set_option maxHeartbeats 2000000 in
/-- Witness for C4 (amended) at a concrete request whose logo payload fails
the data-URL pattern. -/
theorem c4_unmatched_logo_payload_nonfatal_witness :
    parseDataUrl "notadataurl" = none ∧
    (analyzeHandler ⟨none, Except.error "x", "ts"⟩
        ⟨some "Ana", none, none, some "notadataurl"⟩).1 =
      Resp.pdf ("relatorio_" ++ jsReplaceWs "Ana" ++ ".pdf")
        (pdfDoc (analyzeHandler ⟨none, Except.error "x", "ts"⟩
          ⟨some "Ana", none, none, some "notadataurl"⟩).1) :=
  ⟨by decide, (c4_unmatched_logo_payload_nonfatal ⟨none, Except.error "x", "ts"⟩
    ⟨some "Ana", none, none, some "notadataurl"⟩ "Ana" "notadataurl" rfl
    (by decide) rfl (by decide)).1⟩

set_option maxHeartbeats 1000000 in
/-- C5: when the provider call raises (a key is configured and the network
outcome is an error), the handler substitutes the fixed fallback analysis
string and the request still completes with a rendered document. -/
theorem c5_provider_failure_falls_back (key errMsg name : String)
    (email : Option String) (responses : Option (List (String × String)))
    (ts : String) (hn : isFalsyName (some name) = false) :
    (analyzeHandler ⟨some key, Except.error errMsg, ts⟩
        ⟨some name, email, responses, none⟩).1 =
      Resp.pdf ("relatorio_" ++ jsReplaceWs name ++ ".pdf")
        (buildDoc name email responses fallbackAnalysis false ts) := by
  unfold analyzeHandler
  rw [if_neg (by simp [hn])]
  simp [callOpenAI, Except.map, decodeLogo, generatePDFBuffer]

set_option maxHeartbeats 1000000 in
/-- Witness for C5 at a concrete failing provider call. -/
theorem c5_provider_failure_falls_back_witness :
    isFalsyName (some "Ana") = false ∧
    (analyzeHandler ⟨some "k", Except.error "boom", "ts"⟩
        ⟨some "Ana", none, none, none⟩).1 =
      Resp.pdf ("relatorio_" ++ jsReplaceWs "Ana" ++ ".pdf")
        (buildDoc "Ana" none none fallbackAnalysis false "ts") :=
  ⟨by decide, c5_provider_failure_falls_back "k" "boom" "Ana" none none "ts" (by decide)⟩

/-- C6: with no API key configured, `callOpenAI` returns the literal demo
report and never raises, whatever the prompts and whatever the network
call would have produced. -/
theorem c6_missing_key_returns_demo (fetchResult : Except String String)
    (systemPrompt userPrompt : String) :
    callOpenAI none fetchResult systemPrompt userPrompt = .ok demoAnalysis := rfl

set_option maxHeartbeats 1000000 in
/-- C7: two composition calls on identical `(name, email, answers,
analysis, logo)` inputs whose timestamp lines wrap to the same number of
lines produce results that agree on success, on page count, and on the
entire layout once the characters of the timestamp line (the only text
drawn at font size 10) are blanked — determinism modulo generation time. -/
theorem c7_deterministic_modulo_timestamp (name : String) (email : Option String)
    (responses : Option (List (String × String))) (analysis : String)
    (logo : Option (List Nat)) (ts1 ts2 : String)
    (h : wrapLines (tsLine name email ts1) (tsWidth / charW 10) =
      wrapLines (tsLine name email ts2) (tsWidth / charW 10)) :
    (generatePDFBuffer name email responses analysis logo ts1).map
        (fun d => (d.length, eraseDoc d)) =
      (generatePDFBuffer name email responses analysis logo ts2).map
        (fun d => (d.length, eraseDoc d)) := by
  have main : ∀ hl : Bool,
      ((buildDoc name email responses analysis hl ts1).length,
        eraseDoc (buildDoc name email responses analysis hl ts1)) =
      ((buildDoc name email responses analysis hl ts2).length,
        eraseDoc (buildDoc name email responses analysis hl ts2)) := by
    intro hl
    unfold buildDoc
    dsimp only
    rw [h]
    have hb := buildCore_determinism name email (jsEntries (responses.getD []))
      analysis hl (tsLine name email ts1) (tsLine name email ts2)
      (wrapLines (tsLine name email ts2) (tsWidth / charW 10))
    rw [hb.1, hb.2]
  cases logo with
  | none =>
    simp only [generatePDFBuffer, Except.map]
    exact congrArg Except.ok (main false)
  | some bytes =>
    by_cases him : isPNG bytes || isJPEG bytes
    · simp only [generatePDFBuffer, him, if_true, Except.map]
      exact congrArg Except.ok (main true)
    · simp [generatePDFBuffer, him, Except.map]

set_option maxRecDepth 1000000 in
set_option maxHeartbeats 2000000 in
/-- Witness for C7 at two concrete timestamps of one rendered line each. -/
theorem c7_deterministic_modulo_timestamp_witness :
    wrapLines (tsLine "Ana" none "01/01/2026, 10:00:00") (tsWidth / charW 10) =
      wrapLines (tsLine "Ana" none "02/02/2026, 11:30:45") (tsWidth / charW 10) ∧
    (generatePDFBuffer "Ana" none (some [("Sono", "5")]) "ok" none
        "01/01/2026, 10:00:00").map (fun d => (d.length, eraseDoc d)) =
      (generatePDFBuffer "Ana" none (some [("Sono", "5")]) "ok" none
        "02/02/2026, 11:30:45").map (fun d => (d.length, eraseDoc d)) :=
  ⟨by decide, c7_deterministic_modulo_timestamp "Ana" none (some [("Sono", "5")])
    "ok" none "01/01/2026, 10:00:00" "02/02/2026, 11:30:45" (by decide)⟩

/-- C8: a request whose name field is missing (or empty, which JavaScript's
truthiness test also rejects) is answered with the validation error before
anything else happens: no provider call, no logo write, no composition, no
persistence attempt. -/
theorem c8_missing_name_rejected (env : Env) (req : ReqBody)
    (h : isFalsyName req.name = true) :
    analyzeHandler env req = (.badRequest "Nome é obrigatório", noEffects) := by
  unfold analyzeHandler
  rw [if_pos h]

set_option maxHeartbeats 1000000 in
/-- Witness for C8 at a concrete request with no name. -/
theorem c8_missing_name_rejected_witness :
    isFalsyName (none : Option String) = true ∧
    analyzeHandler ⟨none, Except.error "x", "ts"⟩ ⟨none, none, none, none⟩ =
      (.badRequest "Nome é obrigatório", noEffects) :=
  ⟨rfl, c8_missing_name_rejected ⟨none, Except.error "x", "ts"⟩
    ⟨none, none, none, none⟩ rfl⟩

set_option maxHeartbeats 1000000 in
/-- C9: every successful response's attachment filename is
`relatorio_<sanitized name>.pdf` where the sanitization replaces every run
of whitespace in the submitted name by a single underscore, so the filename
is a pure function of the submitted name and contains no whitespace. -/
theorem c9_filename_from_sanitized_name (env : Env) (req : ReqBody)
    (name fn : String) (d : Document) (h1 : req.name = some name)
    (h2 : (analyzeHandler env req).1 = .pdf fn d) :
    fn = "relatorio_" ++ jsReplaceWs name ++ ".pdf" ∧
    (jsReplaceWs name).data.all (fun c => !isJsWs c) = true := by
  refine ⟨?_, jsReplaceWs_no_ws name⟩
  unfold analyzeHandler at h2
  by_cases hf : isFalsyName req.name
  · rw [if_pos hf] at h2
    simp at h2
  · rw [if_neg hf] at h2
    dsimp only at h2
    split at h2
    · simp at h2
    · simp only [Resp.pdf.injEq] at h2
      rw [← h2.1, h1]
      rfl

set_option maxRecDepth 1000000 in
set_option maxHeartbeats 2000000 in
/-- Witness for C9 at a concrete request whose name contains whitespace. -/
theorem c9_filename_from_sanitized_name_witness :
    (analyzeHandler ⟨none, Except.error "x", "ts"⟩
        ⟨some "Ana Maria", none, none, none⟩).1 =
      Resp.pdf "relatorio_Ana_Maria.pdf"
        (pdfDoc (analyzeHandler ⟨none, Except.error "x", "ts"⟩
          ⟨some "Ana Maria", none, none, none⟩).1) ∧
    "relatorio_Ana_Maria.pdf" = "relatorio_" ++ jsReplaceWs "Ana Maria" ++ ".pdf" ∧
    (jsReplaceWs "Ana Maria").data.all (fun c => !isJsWs c) = true :=
  ⟨by decide, c9_filename_from_sanitized_name ⟨none, Except.error "x", "ts"⟩
    ⟨some "Ana Maria", none, none, none⟩ "Ana Maria" "relatorio_Ana_Maria.pdf"
    (pdfDoc (analyzeHandler ⟨none, Except.error "x", "ts"⟩
      ⟨some "Ana Maria", none, none, none⟩).1) rfl (by decide)⟩

set_option maxHeartbeats 1000000 in
/-- C10: with the answers mapping absent or empty, composition succeeds and
produces the same complete document either way: both section titles are
present, zero question/answer pairs are rendered, and every page is
page-numbered by a footer. -/
theorem c10_absent_answers_render_complete (name : String) (email : Option String)
    (analysis ts : String) :
    generatePDFBuffer name email none analysis none ts =
      generatePDFBuffer name email (some []) analysis none ts ∧
    ∃ d, generatePDFBuffer name email none analysis none ts = .ok d ∧
      questionsOf d = [] ∧ answersOf d = [] ∧
      sectionTitlesOf d = ["Respostas do Formulário", "Análise e Recomendações"] ∧
      0 < d.length ∧
      ∀ i, i < d.length → ∃ fnt pg, d[i]? = some pg ∧
        pg.getLast? = some (footerOp i d.length fnt) := by
  refine ⟨rfl, buildDoc name email none analysis false ts, rfl, ?_, ?_, ?_,
    (buildDoc_pages name email none analysis false ts).1,
    (buildDoc_pages name email none analysis false ts).2⟩
  · simpa using questionsOf_buildDoc name email none analysis false ts
  · simpa using answersOf_buildDoc name email none analysis false ts
  · exact sectionTitlesOf_buildDoc name email none analysis false ts

set_option maxHeartbeats 1000000 in
/-- Witness for C10 at a concrete request. -/
theorem c10_absent_answers_render_complete_witness :
    generatePDFBuffer "Ana" none none "ok" none "ts" =
      generatePDFBuffer "Ana" none (some []) "ok" none "ts" :=
  (c10_absent_answers_render_complete "Ana" none "ok" "ts").1

end Assistente
